import Mathlib

/-!
Verification of the ShoreSquad weather acquisition and cleanup-suitability
pipeline (`js/app.js`).  The JavaScript functions are shallowly embedded as
Lean definitions: payload values are rationals (`ℚ`), missing/`null`/
`undefined` values are `Option.none`, fallible fetches are `Except Unit`
payloads, and JavaScript truthiness (`x || d`) is made explicit via the
`jsOr*` helpers.  Definitions named after the source keep the source's
control flow exactly; a small number of clearly named `spec*` definitions
transcribe the natural-language specification instead, for comparison.
-/

set_option autoImplicit false

namespace ShoreSquad

/-- A per-station reading from one NEA endpoint: `{ station_id, value }`,
where `value` may be `null` (modelled as `none`). -/
structure Reading where
  station_id : String
  value : Option ℚ
  deriving Repr, DecidableEq

/-- A fetched measurement payload after JSON parsing: `none` models a payload
where `data?.items?.[0]?.readings` is missing, `some rs` the readings list. -/
def Payload : Type := Option (List Reading)

/-- Substring test `s.includes(sub)` on character lists: does `sub` occur
contiguously in `s`? -/
def listStartsWith : List Char → List Char → Bool
  | _, [] => true
  | [], _ :: _ => false
  | a :: s, b :: t => a = b && listStartsWith s t

/-- JavaScript `String.prototype.includes` over character lists. -/
def listContainsSub : List Char → List Char → Bool
  | [], sub => listStartsWith [] sub
  | s@(_ :: rest), sub => listStartsWith s sub || listContainsSub rest sub

/-- JavaScript `s.includes(sub)`. -/
def jsIncludes (s sub : String) : Bool :=
  listContainsSub s.toList sub.toList

/-- JavaScript `s.toLowerCase()` (character-wise; the NEA forecast texts are
ASCII). -/
def jsToLower (s : String) : String :=
  ⟨s.data.map Char.toLower⟩

/-- JavaScript `v || d` for a possibly-null numeric `v`: `null`/`undefined`
and `0` are falsy, so they yield the default `d`. -/
def jsOrQ (v : Option ℚ) (d : ℚ) : ℚ :=
  match v with
  | some x => if x = 0 then d else x
  | none => d

/-- JavaScript `Math.round` on a rational: `⌊x + 1/2⌋` (half rounds up). -/
def mathRound (x : ℚ) : Int :=
  ⌊x + 1/2⌋

/-- The inner loop of `findNearestStation` (`js/app.js:1154-1159`): walk the
preferred station ids in order; for the first one whose first matching
reading exists and has a non-`null` value, return that id. -/
def findPreferred (readings : List Reading) : List String → Option String
  | [] => none
  | id :: rest =>
    match readings.find? (fun r => decide (r.station_id = id)) with
    | some r => if r.value.isSome then some id else findPreferred readings rest
    | none => findPreferred readings rest

/-- `findNearestStation` (`js/app.js:1149-1164`).  Returns the chosen station
id, or `preferred.head?` when the payload has no readings key; the
`availableReading?.station_id || preferredStations[0]` fallback is modelled
with the empty string explicitly falsy.  `none` models JavaScript
`undefined` (possible only when `preferred` is empty). -/
def findNearestStation (data : Payload) (preferredStations : List String) : Option String :=
  match data with
  | none => preferredStations.head?
  | some readings =>
    match findPreferred readings preferredStations with
    | some id => some id
    | none =>
      match readings.find? (fun r => r.value.isSome) with
      | some r => if r.station_id = "" then preferredStations.head? else some r.station_id
      | none => preferredStations.head?

/-- `getStationValue` (`js/app.js:1169-1174`): look up the first reading with
the given station id and return its (possibly `null`) value. -/
def getStationValue (data : Payload) (stationId : Option String) : Option ℚ :=
  match data with
  | none => none
  | some readings =>
    (readings.find? (fun r => decide (stationId = some r.station_id))).bind Reading.value

/-- The composition the spec calls `resolve`: pick a station with
`findNearestStation`, then read its value with `getStationValue`. -/
def resolveValue (data : Payload) (preferredStations : List String) : Option ℚ :=
  getStationValue data (findNearestStation data preferredStations)

/-- `true` iff some reading for station `id` carries a non-`null` value. -/
def hasValueB (readings : List Reading) (id : String) : Bool :=
  readings.any (fun r => decide (r.station_id = id) && r.value.isSome)

/-- The wind-direction slot of `CurrentConditions`: the source stores either
the raw numeric reading or the string default `'NE'`. -/
inductive WindDirVal where
  | deg (v : ℚ)
  | label (s : String)
  deriving Repr, DecidableEq

/-- JavaScript `getStationValue(windDirData, eastStation) || 'NE'`: `null`,
`undefined` and `0` are falsy and yield the `'NE'` label. -/
def jsOrWindDir (v : Option ℚ) : WindDirVal :=
  match v with
  | some x => if x = 0 then .label "NE" else .deg x
  | none => .label "NE"

/-- The current-conditions record assembled by `getCurrentWeather`
(`js/app.js:1063-1073`) and by `loadFallbackWeatherData` (`js/app.js:1231-1241`).
The per-call `timestamp` field is omitted (the spec's idempotence and
fallback properties all exclude it). -/
structure CurrentData where
  temperature : Int
  humidity : Int
  windSpeed : Int
  windDirection : WindDirVal
  uvIndex : Int
  condition : String
  description : String
  location : String
  deriving Repr, DecidableEq

/-- Result of `getCleanupStatus`: `{ level, message }`, both strings as in the
source (`level` is one of `'perfect' | 'good' | 'ok' | 'poor'`). -/
structure CleanupStatus where
  level : String
  message : String
  deriving Repr, DecidableEq

/-- `getCleanupStatus` (`js/app.js:958-979`): the current-conditions
suitability ladder. -/
def getCleanupStatus (weather : CurrentData) : CleanupStatus :=
  let temp := weather.temperature
  let humidity := weather.humidity
  let windSpeed := weather.windSpeed
  let uvIndex := weather.uvIndex
  if temp > 35 then ⟨"poor", "Too hot for cleanup! Stay hydrated ☀️🥵"⟩
  else if uvIndex > 9 then ⟨"poor", "Extreme UV - avoid midday cleanup ☀️⚠️"⟩
  else if windSpeed > 25 then ⟨"poor", "Too windy - wait for calmer weather 💨"⟩
  else if temp < 20 then ⟨"ok", "Cool weather - dress warmly! 🧥"⟩
  else if humidity > 90 then ⟨"ok", "Very humid - take breaks often 💧"⟩
  else if temp ≥ 24 ∧ temp ≤ 32 ∧ windSpeed < 20 ∧ humidity < 85 then
    ⟨"good", "Perfect conditions for cleanup! 🌟"⟩
  else ⟨"good", "Good cleanup weather 👍"⟩

/-- `getStatusText` (`js/app.js:997-1005`): render a level string for the UI. -/
def getStatusText (status : String) : String :=
  if status = "perfect" then "Perfect"
  else if status = "good" then "Good"
  else if status = "ok" then "Okay"
  else if status = "poor" then "Poor"
  else "Unknown"

/-- `getWeatherIcon` (`js/app.js:1179-1185`), evaluated on the raw (un-rounded)
resolved values. -/
def getWeatherIcon (temp humidity windSpeed : ℚ) : String :=
  if humidity > 80 ∧ temp < 26 then "🌧️"
  else if humidity > 70 then "⛅"
  else if temp > 32 then "☀️"
  else if windSpeed > 20 then "💨"
  else "☀️"

/-- `getWeatherDescription` (`js/app.js:1203-1209`). -/
def getWeatherDescription (temp humidity windSpeed : ℚ) : String :=
  if temp > 32 then "Hot"
  else if temp < 24 then "Cool"
  else if humidity > 80 then "Humid"
  else if windSpeed > 20 then "Windy"
  else "Pleasant"

/-- `getWeatherIconFromForecast` (`js/app.js:1190-1198`): keyword ladder over
the lowercased free-text forecast description, first match winning. -/
def getWeatherIconFromForecast (forecast : String) : String :=
  let text := jsToLower forecast
  if jsIncludes text "rain" || jsIncludes text "shower" || jsIncludes text "thundery" then "🌧️"
  else if jsIncludes text "cloudy" || jsIncludes text "overcast" then "☁️"
  else if jsIncludes text "partly cloudy" || jsIncludes text "fair" then "⛅"
  else if jsIncludes text "hazy" || jsIncludes text "mist" then "🌫️"
  else "☀️"

/-- `getCleanupStatusFromTemp` (`js/app.js:1214-1222`): the forecast-day
suitability ladder. -/
def getCleanupStatusFromTemp (temp : Int) (forecast : String) : String :=
  let text := jsToLower forecast
  if jsIncludes text "thundery" || jsIncludes text "heavy rain" then "poor"
  else if temp > 35 then "poor"
  else if jsIncludes text "rain" || jsIncludes text "shower" then "ok"
  else if temp ≥ 25 ∧ temp ≤ 32 ∧ jsIncludes text "rain" = false then "perfect"
  else "good"

/-- The preferred-station list passed at the single call site
(`js/app.js:1055`): East-region stations near Pasir Ris. -/
def preferredStations : List String := ["S50", "S24", "S06"]

/-- The success path of `getCurrentWeather` (`js/app.js:1038-1074`): resolve a
station from the temperature payload only, then read every measurement at
that station with a hard-coded default for missing or falsy values. -/
def currentFromPayloads (tempData humidityData windSpeedData windDirData uvData : Payload) :
    CurrentData :=
  let eastStation := findNearestStation tempData preferredStations
  let temperature := jsOrQ (getStationValue tempData eastStation) 28
  let humidity := jsOrQ (getStationValue humidityData eastStation) 70
  let windSpeed := jsOrQ (getStationValue windSpeedData eastStation) 12
  let windDir := jsOrWindDir (getStationValue windDirData eastStation)
  let uvIndex := jsOrQ (getStationValue uvData eastStation) 6
  { temperature := mathRound temperature
    humidity := mathRound humidity
    windSpeed := mathRound windSpeed
    windDirection := windDir
    uvIndex := mathRound uvIndex
    condition := getWeatherIcon temperature humidity windSpeed
    description := getWeatherDescription temperature humidity windSpeed
    location := "Pasir Ris Area" }

/-- Humidity range `{ low, high }` attached to a live forecast day. -/
structure Hum where
  low : Int
  high : Int
  deriving Repr, DecidableEq

/-- One upstream forecast entry from the NEA 4-day forecast payload:
`{ date, temperature: {low, high}, forecast, relative_humidity, wind }`
(`wind` models `wind?.speed_kmh`, absent when the `wind` object is missing). -/
structure NeaForecast where
  date : String
  tempLow : Int
  tempHigh : Int
  forecast : String
  relative_humidity : Hum
  wind : Option ℚ
  deriving Repr, DecidableEq

/-- The wind slot of a rendered forecast day: a numeric `speed_kmh` or the
`'Light'` default. -/
inductive WindVal where
  | kmh (v : ℚ)
  | light
  deriving Repr, DecidableEq

/-- A rendered forecast day as built by `getWeatherForecast` (live branch,
`js/app.js:1100-1111`) or `generateFallbackForecast` (`js/app.js:1258-1266`);
fields absent from the fallback objects (`date`, `humidity`, `wind`) are
`Option`s. -/
structure ForecastDay where
  day : String
  date : Option String
  temp : Int
  tempHigh : Int
  tempLow : Int
  condition : String
  description : String
  humidity : Option Hum
  wind : Option WindVal
  status : String
  deriving Repr, DecidableEq

/-- One live forecast entry mapped to a `ForecastDay` (`js/app.js:1090-1112`);
`wkd` embeds `toLocaleDateString(..., { weekday: 'short' })`. -/
def mkForecastDay (wkd : String → String) (index : Nat) (f : NeaForecast) : ForecastDay :=
  let dayName := if index = 0 then "Today" else if index = 1 then "Tomorrow" else wkd f.date
  let avgTemp := mathRound (((f.tempHigh : ℚ) + (f.tempLow : ℚ)) / 2)
  { day := dayName
    date := some f.date
    temp := avgTemp
    tempHigh := f.tempHigh
    tempLow := f.tempLow
    condition := getWeatherIconFromForecast f.forecast
    description := f.forecast
    humidity := some f.relative_humidity
    wind := some (match f.wind with
      | some v => if v = 0 then .light else .kmh v
      | none => .light)
    status := getCleanupStatusFromTemp avgTemp f.forecast }

/-- The parallel constant arrays of `generateFallbackForecast`
(`js/app.js:1253-1256`). -/
def fallbackDays : List String :=
  ["Today", "Tomorrow", "Wednesday", "Thursday", "Friday", "Saturday", "Sunday"]

/-- Fallback condition symbols, one per day. -/
def fallbackConditions : List String := ["☀️", "⛅", "🌧️", "☀️", "⛅", "☀️", "⛅"]

/-- Fallback average temperatures, one per day. -/
def fallbackTemps : List Int := [28, 26, 24, 30, 27, 29, 25]

/-- Fallback suitability levels, one per day. -/
def fallbackStatuses : List String :=
  ["perfect", "good", "ok", "perfect", "good", "perfect", "good"]

/-- `generateFallbackForecast` (`js/app.js:1252-1267`): the deterministic
7-day static forecast built from the parallel constant arrays. -/
def generateFallbackForecast : List ForecastDay :=
  fallbackDays.enum.map fun p =>
    { day := p.2
      date := none
      temp := fallbackTemps.getD p.1 0
      tempHigh := fallbackTemps.getD p.1 0 + 2
      tempLow := fallbackTemps.getD p.1 0 - 3
      condition := fallbackConditions.getD p.1 ""
      description := "Mixed conditions"
      humidity := none
      wind := none
      status := fallbackStatuses.getD p.1 "" }

/-- `getWeatherForecast` (`js/app.js:1079-1118`): on a fetch failure or a
payload with no `items[0].forecasts` array, the static fallback; otherwise
map each entry with its index. -/
def getWeatherForecast (wkd : String → String)
    (result : Except Unit (Option (List NeaForecast))) : List ForecastDay :=
  match result with
  | .error _ => generateFallbackForecast
  | .ok none => generateFallbackForecast
  | .ok (some forecasts) => forecasts.enum.map fun p => mkForecastDay wkd p.1 p.2

/-- The static offline current-conditions record of `loadFallbackWeatherData`
(`js/app.js:1231-1241`). -/
def fallbackCurrent : CurrentData :=
  { temperature := 28
    humidity := 75
    windSpeed := 12
    windDirection := .label "NE"
    uvIndex := 6
    condition := "⛅"
    description := "Partly Cloudy"
    location := "Pasir Ris Area (Offline)" }

/-- The combined weather state `this.weatherData`. -/
structure WeatherData where
  current : CurrentData
  forecast : List ForecastDay
  deriving Repr, DecidableEq

/-- `loadFallbackWeatherData` (`js/app.js:1227-1247`): the full static offline
dataset. -/
def loadFallbackWeatherData : WeatherData :=
  { current := fallbackCurrent, forecast := generateFallbackForecast }

/-- `loadRealWeatherData` (`js/app.js:1010-1033`): `getCurrentWeather` awaits
`Promise.all` over the five fetches, so it throws as soon as any of the five
is an error and the `catch` replaces everything with the fallback dataset;
`getWeatherForecast` never throws (it has its own `catch`). -/
def loadRealWeatherData (wkd : String → String)
    (tempR humidityR windSpeedR windDirR uvR : Except Unit Payload)
    (forecastR : Except Unit (Option (List NeaForecast))) : WeatherData :=
  match tempR, humidityR, windSpeedR, windDirR, uvR with
  | .ok tp, .ok hp, .ok wp, .ok wdp, .ok uvp =>
    { current := currentFromPayloads tp hp wp wdp uvp
      forecast := getWeatherForecast wkd forecastR }
  | _, _, _, _, _ => loadFallbackWeatherData

/-- Spec-side definition (for comparison with the source): the 9-rule ordered
suitability ladder exactly as §4.2 of the spec states it, first matching rule
winning, instantiated with the source's thunder/heavy-rain and rain/shower
keywords. -/
def specSuitabilityLadder (temp uvIndex windSpeed humidity : Int) (text : String) : String :=
  let lower := jsToLower text
  if temp > 35 then "poor"
  else if uvIndex > 9 then "poor"
  else if windSpeed > 25 then "poor"
  else if jsIncludes lower "thundery" || jsIncludes lower "heavy rain" then "poor"
  else if temp < 20 then "ok"
  else if humidity > 90 then "ok"
  else if jsIncludes lower "rain" || jsIncludes lower "shower" then "ok"
  else if temp ≥ 24 ∧ temp ≤ 32 ∧ windSpeed < 20 ∧ humidity < 85 then "perfect"
  else "good"

/-- Spec-side definition: the spec's `isOffline` flag of `CurrentConditions`.
The source record has no boolean field; its offline marking is the
`'(Offline)'` location label, so the flag is realised as this predicate. -/
def specIsOffline (c : CurrentData) : Bool :=
  c.location = "Pasir Ris Area (Offline)"

/-- An ordered decision ladder: the result of the first rule whose guard
holds, or the default when none fires. -/
def firstMatch {α : Type} : List ((α → Bool) × String) → String → α → String
  | [], d, _ => d
  | (c, r) :: rest, d, x => if c x then r else firstMatch rest d x

/-- The current-conditions ladder of `getCleanupStatus` as an ordered rule
list (guards in source order; the final perfect-range test only selects a
message, not a level, so it is not a rule of the level ladder). -/
def currentConditionRules : List ((CurrentData → Bool) × String) :=
  [ (fun w => decide (w.temperature > 35), "poor")
  , (fun w => decide (w.uvIndex > 9), "poor")
  , (fun w => decide (w.windSpeed > 25), "poor")
  , (fun w => decide (w.temperature < 20), "ok")
  , (fun w => decide (w.humidity > 90), "ok") ]

/-- The forecast-day ladder of `getCleanupStatusFromTemp` as an ordered rule
list over (average temperature, forecast text). -/
def forecastDayRules : List ((Int × String → Bool) × String) :=
  [ (fun p => jsIncludes (jsToLower p.2) "thundery" || jsIncludes (jsToLower p.2) "heavy rain", "poor")
  , (fun p => decide (p.1 > 35), "poor")
  , (fun p => jsIncludes (jsToLower p.2) "rain" || jsIncludes (jsToLower p.2) "shower", "ok")
  , (fun p => decide (p.1 ≥ 25) && decide (p.1 ≤ 32) && !jsIncludes (jsToLower p.2) "rain", "perfect") ]

/-- Concrete payloads used to exhibit that the resolver runs on the
temperature payload only: the temperature payload reports station S50, the
humidity payload reports only station S24 (value 80). -/
def cxTempPayload : Payload := some [⟨"S50", some 30⟩]

/-- Humidity payload for the resolver counterexample: S24 carries 80. -/
def cxHumidityPayload : Payload := some [⟨"S24", some 80⟩]

/-- Demonstration readings for the resolver properties: a non-preferred
station first, then preferred station S24. -/
def demoReadings : List Reading := [⟨"S99", some 5⟩, ⟨"S24", some 33⟩]

/-- The guard of the `findPreferred` loop: the first reading carrying the
given station id exists and has a non-`null` value. -/
def firstReadingHasValue (readings : List Reading) (id : String) : Bool :=
  match readings.find? (fun r => decide (r.station_id = id)) with
  | some r => r.value.isSome
  | none => false

/-- Temperature payload for the falsy-zero demonstration: station S50 is
live with 25 °C. -/
def demoTempPayload : Payload := some [⟨"S50", some 25⟩]

/-- Humidity payload for the falsy-zero demonstration: station S50 reports
the legitimate value 0. -/
def demoZeroHumidity : Payload := some [⟨"S50", some 0⟩]

/-- Temperature payload for the mixed-record demonstration: station S50 is
live with 30 °C. -/
def mixedTempPayload : Payload := some [⟨"S50", some 30⟩]

/-- A load cycle in which the humidity fetch succeeds but its JSON has no
`items[0].readings` (a malformed payload, modelled `none`), while the
temperature payload is live: no fetch promise rejects, so the `catch` of
`loadRealWeatherData` never runs. -/
def mixedLoad : WeatherData :=
  loadRealWeatherData (fun _ => "") (.ok mixedTempPayload) (.ok none)
    (.ok (some [])) (.ok (some [])) (.ok (some [])) (.ok none)

theorem list_find?_congr {α : Type} {p q : α → Bool} (h : ∀ x, p x = q x) :
    ∀ l : List α, l.find? p = l.find? q := by
  intro l
  induction l with
  | nil => rfl
  | cons a l ih =>
    rw [List.find?_cons, List.find?_cons, h a]
    cases q a
    · exact ih
    · rfl

theorem findPreferred_eq_find? (readings : List Reading) (preferred : List String) :
    findPreferred readings preferred = preferred.find? (firstReadingHasValue readings) := by
  induction preferred with
  | nil => rfl
  | cons id rest ih =>
    rw [List.find?_cons]
    show (match readings.find? (fun r => decide (r.station_id = id)) with
      | some r => if r.value.isSome then some id else findPreferred readings rest
      | none => findPreferred readings rest) = _
    unfold firstReadingHasValue
    cases hf : readings.find? (fun r => decide (r.station_id = id)) with
    | none => simpa using ih
    | some r =>
      cases hv : r.value.isSome with
      | true => simp [hv]
      | false =>
        simp only [hv, Bool.false_eq_true, if_false]
        rw [ih]
        rfl

theorem firstReadingHasValue_eq_hasValueB (readings : List Reading)
    (hnd : (readings.map Reading.station_id).Nodup) (id : String) :
    firstReadingHasValue readings id = hasValueB readings id := by
  induction readings with
  | nil => rfl
  | cons r rest ih =>
    rw [List.map_cons, List.nodup_cons] at hnd
    obtain ⟨hnotmem, hndrest⟩ := hnd
    by_cases hid : r.station_id = id
    · have hany : rest.any (fun x => decide (x.station_id = id) && x.value.isSome) = false := by
        rw [Bool.eq_false_iff]
        intro hc
        obtain ⟨x, hx, hpx⟩ := List.any_eq_true.mp hc
        have : x.station_id = id := by
          rw [Bool.and_eq_true] at hpx
          simpa using hpx.1
        exact hnotmem (by rw [hid]; exact this ▸ List.mem_map_of_mem Reading.station_id hx)
      simp [firstReadingHasValue, hasValueB, List.find?_cons, hid, hany]
    · have h1 : firstReadingHasValue (r :: rest) id = firstReadingHasValue rest id := by
        simp [firstReadingHasValue, List.find?_cons, hid]
      have h2 : hasValueB (r :: rest) id = hasValueB rest id := by
        simp [hasValueB, hid]
      rw [h1, h2, ih hndrest]

theorem find?_station_of_nodup (readings : List Reading)
    (hnd : (readings.map Reading.station_id).Nodup) (r : Reading) (hr : r ∈ readings) :
    readings.find? (fun x => decide (x.station_id = r.station_id)) = some r := by
  induction readings with
  | nil => cases hr
  | cons a rest ih =>
    rw [List.map_cons, List.nodup_cons] at hnd
    obtain ⟨hnotmem, hndrest⟩ := hnd
    rcases List.mem_cons.mp hr with rfl | hmem
    · simp [List.find?_cons]
    · have hne : a.station_id ≠ r.station_id := by
        intro hEq
        exact hnotmem (hEq ▸ List.mem_map_of_mem Reading.station_id hmem)
      have hpa : decide (a.station_id = r.station_id) = false := decide_eq_false hne
      simp only [List.find?_cons, hpa]
      exact ih hndrest hmem

theorem findNearestStation_some (readings : List Reading) (preferred : List String) :
    findNearestStation (some readings) preferred =
      (match findPreferred readings preferred with
      | some id => some id
      | none =>
        match readings.find? (fun r => r.value.isSome) with
        | some r => if r.station_id = "" then preferred.head? else some r.station_id
        | none => preferred.head?) := rfl

theorem getStationValue_some_id (readings : List Reading) (id : String) :
    getStationValue (some readings) (some id) =
      (readings.find? (fun r => decide (r.station_id = id))).bind Reading.value := by
  show (readings.find? (fun r => decide (some id = some r.station_id))).bind Reading.value = _
  rw [list_find?_congr (fun x => ?_) readings]
  exact decide_eq_decide.mpr (by rw [Option.some.injEq]; exact eq_comm)

/-- C5: if at least one preferred station has a non-null reading, `resolve`
returns the value of the first such station in preferred-list order (so never
a non-preferred station's value); if no preferred station has one but some
reading does, `resolve` returns the first non-null value in input order.
Hypotheses reflect the spec's data model (§3, glossary): one reading per
station per kind, station ids are non-empty short codes. -/
theorem resolve_preferred_first (readings : List Reading) (preferred : List String)
    (hnd : (readings.map Reading.station_id).Nodup)
    (hne : ∀ r ∈ readings, r.station_id ≠ "") :
    (∀ id, preferred.find? (hasValueB readings) = some id →
      ∃ r ∈ readings, r.station_id = id ∧ r.value.isSome = true ∧ id ∈ preferred ∧
        resolveValue (some readings) preferred = r.value) ∧
    ((∀ id ∈ preferred, hasValueB readings id = false) →
      ∀ r, readings.find? (fun x => x.value.isSome) = some r →
        resolveValue (some readings) preferred = r.value) := by
  have hcongr : ∀ x, firstReadingHasValue readings x = hasValueB readings x :=
    firstReadingHasValue_eq_hasValueB readings hnd
  constructor
  · intro id hfind
    have hhas : hasValueB readings id = true := List.find?_some hfind
    have hidmem : id ∈ preferred := List.mem_of_find?_eq_some hfind
    obtain ⟨r, hrmem, hp⟩ := List.any_eq_true.mp hhas
    rw [Bool.and_eq_true] at hp
    obtain ⟨hp1, hval⟩ := hp
    have hsid : r.station_id = id := by simpa using hp1
    refine ⟨r, hrmem, hsid, hval, hidmem, ?_⟩
    have hfp : findPreferred readings preferred = some id := by
      rw [findPreferred_eq_find?, list_find?_congr hcongr]
      exact hfind
    have hfn : findNearestStation (some readings) preferred = some id := by
      rw [findNearestStation_some, hfp]
    unfold resolveValue
    rw [hfn, getStationValue_some_id, ← hsid, find?_station_of_nodup readings hnd r hrmem]
    rfl
  · intro hnone r hfr
    have hfp : findPreferred readings preferred = none := by
      rw [findPreferred_eq_find?, list_find?_congr hcongr]
      exact List.find?_eq_none.mpr (fun x hx => by simp [hnone x hx])
    have hrmem : r ∈ readings := List.mem_of_find?_eq_some hfr
    have hrne : r.station_id ≠ "" := hne r hrmem
    have hfn : findNearestStation (some readings) preferred = some r.station_id := by
      rw [findNearestStation_some, hfp, hfr]
      simp [hrne]
    unfold resolveValue
    rw [hfn, getStationValue_some_id, find?_station_of_nodup readings hnd r hrmem]
    rfl

/-- Witness for C5: on `demoReadings` (non-preferred S99 first, preferred S24
second) the resolver picks S24's value 33. -/
theorem resolve_preferred_first_witness :
    ∃ r ∈ demoReadings, r.station_id = "S24" ∧ r.value.isSome = true ∧
      "S24" ∈ preferredStations ∧
      resolveValue (some demoReadings) preferredStations = r.value :=
  (resolve_preferred_first demoReadings preferredStations (by decide) (by decide)).1
    "S24" (by decide)

/-- C9: on an empty readings sequence the resolver deterministically yields
`none` ("no data available") without failing, the caller's `||`-default then
applies, and each assembled current-conditions field is its hard-coded
default (28 / 70 / 12 / `'NE'` / 6). -/
theorem resolve_empty_no_data (preferred : List String) (d : ℚ) :
    resolveValue (some []) preferred = none ∧
    jsOrQ (resolveValue (some []) preferred) d = d ∧
    (currentFromPayloads (some []) (some []) (some []) (some []) (some [])).temperature = 28 ∧
    (currentFromPayloads (some []) (some []) (some []) (some []) (some [])).humidity = 70 ∧
    (currentFromPayloads (some []) (some []) (some []) (some []) (some [])).windSpeed = 12 ∧
    (currentFromPayloads (some []) (some []) (some []) (some []) (some [])).windDirection =
      .label "NE" ∧
    (currentFromPayloads (some []) (some []) (some []) (some []) (some [])).uvIndex = 6 := by
  refine ⟨rfl, rfl, ?_, ?_, ?_, rfl, ?_⟩
  · show mathRound 28 = 28
    norm_num [mathRound]
  · show mathRound 70 = 70
    norm_num [mathRound]
  · show mathRound 12 = 12
    norm_num [mathRound]
  · show mathRound 6 = 6
    norm_num [mathRound]

/-- C2: the concrete suitability-ladder evaluations.  The code returns level
`'poor'` for 36 °C, `'ok'` (rendered "Okay") for 18 °C / 50 % and for
27 °C / 92 %, as the claim states; but for 28 °C / 70 % / 10 km/h / UV 6 it
returns level `'good'` — the "Perfect" level of the claim appears only in the
message text, so the rendered status is "Good", not "Perfect". -/
theorem cleanup_status_concrete_eval :
    getCleanupStatus ⟨28, 70, 10, .label "NE", 6, "", "", ""⟩ =
      ⟨"good", "Perfect conditions for cleanup! 🌟"⟩ ∧
    (getCleanupStatus ⟨36, 70, 10, .label "NE", 6, "", "", ""⟩).level = "poor" ∧
    (getCleanupStatus ⟨18, 50, 10, .label "NE", 6, "", "", ""⟩).level = "ok" ∧
    (getCleanupStatus ⟨27, 92, 5, .label "NE", 6, "", "", ""⟩).level = "ok" ∧
    getStatusText "good" = "Good" ∧ getStatusText "ok" = "Okay" ∧
    getStatusText "perfect" = "Perfect" := by
  decide

/-- C8: `getWeatherIconFromForecast` checks the `'cloudy'` substring before
`'partly cloudy'`, so `"Partly Cloudy"` yields the cloud symbol ☁️, not the
partial-cloud symbol ⛅ the claim (and the repository's own NEA integration
doc) state; the ⛅ branch is reachable only through `'fair'`. -/
theorem weather_icon_concrete_eval :
    getWeatherIconFromForecast "Partly Cloudy" = "☁️" ∧
    getWeatherIconFromForecast "Fair" = "⛅" ∧
    getWeatherIconFromForecast "Thundery Showers" = "🌧️" ∧
    getWeatherIconFromForecast "Hazy" = "🌫️" ∧
    getWeatherIconFromForecast "Sunny" = "☀️" := by
  decide

/-- Counterexample to C1: the spec's 9-rule ladder and the code disagree.
At 24 °C, UV 5, wind 10 km/h, humidity 70 %, text "Fair", rule 8 of the spec
ladder yields `Perfect`, but the forecast-day classifier returns `'good'`
(its perfect range starts at 25 °C and it checks no wind/humidity/UV); and
at 28 °C / 70 % / 10 km/h / UV 6 the spec ladder yields `Perfect` while
`getCleanupStatus` returns level `'good'`. -/
theorem suitability_ladder_cx :
    specSuitabilityLadder 24 5 10 70 "Fair" = "perfect" ∧
    getCleanupStatusFromTemp 24 "Fair" = "good" ∧
    specSuitabilityLadder 28 6 10 70 "" = "perfect" ∧
    (getCleanupStatus ⟨28, 70, 10, .label "NE", 6, "", "", ""⟩).level = "good" := by
  decide

/-- C1 (amended): the two classifiers are the ordered first-match ladders
actually in the source.  Current conditions: temp>35 → poor, uv>9 → poor,
wind>25 → poor, temp<20 → ok, humidity>90 → ok, otherwise level 'good' —
with the perfect-range test `[24,32] ∧ wind<20 ∧ humidity<85` selecting only
the "Perfect conditions" message (the level stays 'good').  Forecast days:
thundery/heavy-rain text → poor, temp>35 → poor, rain/shower text → ok,
temp ∈ [25,32] with no rain text → perfect, otherwise good. -/
theorem cleanup_ladders_amended :
    (∀ w : CurrentData, (getCleanupStatus w).level = firstMatch currentConditionRules "good" w) ∧
    (∀ (t : Int) (text : String),
      getCleanupStatusFromTemp t text = firstMatch forecastDayRules "good" (t, text)) ∧
    (∀ w : CurrentData,
      ((getCleanupStatus w).message = "Perfect conditions for cleanup! 🌟" ↔
        ¬(w.temperature > 35) ∧ ¬(w.uvIndex > 9) ∧ ¬(w.windSpeed > 25) ∧
          ¬(w.temperature < 20) ∧ ¬(w.humidity > 90) ∧
          24 ≤ w.temperature ∧ w.temperature ≤ 32 ∧ w.windSpeed < 20 ∧ w.humidity < 85)) := by
  refine ⟨fun w => ?_, fun t text => ?_, fun w => ?_⟩
  · simp only [getCleanupStatus, firstMatch, currentConditionRules, decide_eq_true_eq]
    split_ifs <;> rfl
  · simp only [getCleanupStatusFromTemp, firstMatch, forecastDayRules, decide_eq_true_eq,
      Bool.and_eq_true, Bool.not_eq_true', ge_iff_le]
    split_ifs <;> first | rfl | tauto
  · simp only [getCleanupStatus, ge_iff_le]
    split_ifs <;> simp_all

/-- C4 (amended): only the temperature payload is passed through the
preferred-station resolver; the single station id it returns is used for a
plain lookup in each of the five payloads, with the per-kind hard-coded
default substituted for a missing or falsy lookup. -/
theorem station_resolution_shared (tp hp wp wdp uvp : Payload) :
    (currentFromPayloads tp hp wp wdp uvp).temperature =
      mathRound (jsOrQ (getStationValue tp (findNearestStation tp preferredStations)) 28) ∧
    (currentFromPayloads tp hp wp wdp uvp).humidity =
      mathRound (jsOrQ (getStationValue hp (findNearestStation tp preferredStations)) 70) ∧
    (currentFromPayloads tp hp wp wdp uvp).windSpeed =
      mathRound (jsOrQ (getStationValue wp (findNearestStation tp preferredStations)) 12) ∧
    (currentFromPayloads tp hp wp wdp uvp).windDirection =
      jsOrWindDir (getStationValue wdp (findNearestStation tp preferredStations)) ∧
    (currentFromPayloads tp hp wp wdp uvp).uvIndex =
      mathRound (jsOrQ (getStationValue uvp (findNearestStation tp preferredStations)) 6) :=
  ⟨rfl, rfl, rfl, rfl, rfl⟩

/-- Counterexample to C4: the humidity payload carries a live preferred
reading (S24 → 80) that per-kind resolution would return, yet the assembled
record uses the default 70, because the station was resolved from the
temperature payload alone (S50) and S50 is absent from the humidity
payload. -/
theorem resolver_only_on_temperature_cx :
    resolveValue cxHumidityPayload preferredStations = some 80 ∧
    (currentFromPayloads cxTempPayload cxHumidityPayload (some []) (some [])
      (some [])).humidity = 70 := by
  refine ⟨by decide, ?_⟩
  show mathRound (jsOrQ (getStationValue cxHumidityPayload
    (findNearestStation cxTempPayload preferredStations)) 70) = 70
  have h : jsOrQ (getStationValue cxHumidityPayload
      (findNearestStation cxTempPayload preferredStations)) 70 = 70 := by decide
  rw [h]
  norm_num [mathRound]

/-- C3 (amended): when any of the five current-conditions fetches fails as a
rejected promise (network error, non-success HTTP status, or unparseable
JSON — modelled `.error ()`), the whole load fails as a unit: the resulting
current record is exactly the static offline record — never a mix of live
and fallback fields — and it is marked as degraded by its
`'Pasir Ris Area (Offline)'` location label (the source record carries no
separate boolean; the spec's `isOffline` flag is realised as the label,
formalised by `specIsOffline`).  A payload that parses but lacks the
readings array does not reject and is handled per-field instead (see the
counterexample `load_current_mixed_record_cx`). -/
theorem load_current_fails_as_unit (wkd : String → String)
    (tempR humidityR windSpeedR windDirR uvR : Except Unit Payload)
    (forecastR : Except Unit (Option (List NeaForecast)))
    (h : tempR = .error () ∨ humidityR = .error () ∨ windSpeedR = .error () ∨
      windDirR = .error () ∨ uvR = .error ()) :
    (loadRealWeatherData wkd tempR humidityR windSpeedR windDirR uvR forecastR).current =
      fallbackCurrent ∧
    specIsOffline
      (loadRealWeatherData wkd tempR humidityR windSpeedR windDirR uvR forecastR).current =
      true ∧
    (loadRealWeatherData wkd tempR humidityR windSpeedR windDirR uvR forecastR).current.location =
      "Pasir Ris Area (Offline)" := by
  have hcur : (loadRealWeatherData wkd tempR humidityR windSpeedR windDirR uvR
      forecastR).current = fallbackCurrent := by
    cases tempR <;> cases humidityR <;> cases windSpeedR <;> cases windDirR <;> cases uvR <;>
      simp_all [loadRealWeatherData, loadFallbackWeatherData]
  refine ⟨hcur, ?_, ?_⟩
  · rw [hcur]
    decide
  · rw [hcur]
    rfl

/-- Counterexample to C3: the malformed-payload failure mode the claim lists
does not fail the load as a unit.  With a live temperature payload
(S50 = 30 °C) and a humidity payload whose JSON lacks `items[0].readings`,
the load produces a mixed record — live temperature 30 beside the default
humidity 70 — labelled `'Pasir Ris Area'`, not the static offline record
with `isOffline` set. -/
theorem load_current_mixed_record_cx :
    mixedLoad.current.temperature = 30 ∧
    mixedLoad.current.humidity = 70 ∧
    mixedLoad.current.location = "Pasir Ris Area" ∧
    specIsOffline mixedLoad.current = false ∧
    mixedLoad.current ≠ fallbackCurrent := by
  refine ⟨?_, ?_, rfl, rfl, ?_⟩
  · show mathRound (jsOrQ (getStationValue mixedTempPayload
      (findNearestStation mixedTempPayload preferredStations)) 28) = 30
    have h : jsOrQ (getStationValue mixedTempPayload
        (findNearestStation mixedTempPayload preferredStations)) 28 = 30 := by decide
    rw [h]
    norm_num [mathRound]
  · show mathRound (jsOrQ (getStationValue none
      (findNearestStation mixedTempPayload preferredStations)) 70) = 70
    have h : jsOrQ (getStationValue none
        (findNearestStation mixedTempPayload preferredStations)) 70 = 70 := by decide
    rw [h]
    norm_num [mathRound]
  · intro hEq
    have hl : "Pasir Ris Area" = "Pasir Ris Area (Offline)" := by
      calc "Pasir Ris Area" = mixedLoad.current.location := rfl
        _ = fallbackCurrent.location := by rw [hEq]
        _ = "Pasir Ris Area (Offline)" := rfl
    exact absurd hl (by decide)

/-- Witness for C3: with the temperature fetch failed and everything else
fine, the result is exactly the static offline record. -/
theorem load_current_fails_as_unit_witness :
    (loadRealWeatherData (fun _ => "") (.error ()) (.ok none) (.ok none) (.ok none) (.ok none)
      (.ok none)).current = fallbackCurrent ∧
    specIsOffline (loadRealWeatherData (fun _ => "") (.error ()) (.ok none) (.ok none) (.ok none)
      (.ok none) (.ok none)).current = true ∧
    (loadRealWeatherData (fun _ => "") (.error ()) (.ok none) (.ok none) (.ok none) (.ok none)
      (.ok none)).current.location = "Pasir Ris Area (Offline)" :=
  load_current_fails_as_unit (fun _ => "") (.error ()) (.ok none) (.ok none) (.ok none)
    (.ok none) (.ok none) (Or.inl rfl)

/-- C7: on a failed forecast fetch or a payload without a forecasts array,
`getWeatherForecast` returns the deterministic static 7-entry fallback with
its preset labels, symbols, temperatures and suitability levels (a constant,
hence stable across repeated calls). -/
theorem forecast_failure_fallback (wkd : String → String)
    (r : Except Unit (Option (List NeaForecast)))
    (h : r = .error () ∨ r = .ok none) :
    getWeatherForecast wkd r = generateFallbackForecast ∧
    generateFallbackForecast.length = 7 ∧
    generateFallbackForecast.map ForecastDay.day = fallbackDays ∧
    generateFallbackForecast.map ForecastDay.condition = fallbackConditions ∧
    generateFallbackForecast.map ForecastDay.temp = fallbackTemps ∧
    generateFallbackForecast.map ForecastDay.status = fallbackStatuses := by
  refine ⟨?_, by decide, by decide, by decide, by decide, by decide⟩
  rcases h with rfl | rfl <;> rfl

/-- Witness for C7: a payload whose forecasts array is missing yields the
fallback sequence. -/
theorem forecast_failure_fallback_witness :
    getWeatherForecast (fun _ => "") (.ok none) = generateFallbackForecast ∧
    generateFallbackForecast.length = 7 ∧
    generateFallbackForecast.map ForecastDay.day = fallbackDays ∧
    generateFallbackForecast.map ForecastDay.condition = fallbackConditions ∧
    generateFallbackForecast.map ForecastDay.temp = fallbackTemps ∧
    generateFallbackForecast.map ForecastDay.status = fallbackStatuses :=
  forecast_failure_fallback (fun _ => "") (.ok none) (Or.inr rfl)

/-- C10: a resolved reading whose value is exactly 0 is treated like an
absent reading: the `||`-default substitutes the kind's hard-coded default
(28 / 70 / 12 / `'NE'` / 6), because `0` is falsy in JavaScript. -/
theorem zero_reading_replaced_by_default (tp hp wp wdp uvp : Payload) :
    (getStationValue tp (findNearestStation tp preferredStations) = some 0 →
      (currentFromPayloads tp hp wp wdp uvp).temperature = 28) ∧
    (getStationValue hp (findNearestStation tp preferredStations) = some 0 →
      (currentFromPayloads tp hp wp wdp uvp).humidity = 70) ∧
    (getStationValue wp (findNearestStation tp preferredStations) = some 0 →
      (currentFromPayloads tp hp wp wdp uvp).windSpeed = 12) ∧
    (getStationValue wdp (findNearestStation tp preferredStations) = some 0 →
      (currentFromPayloads tp hp wp wdp uvp).windDirection = .label "NE") ∧
    (getStationValue uvp (findNearestStation tp preferredStations) = some 0 →
      (currentFromPayloads tp hp wp wdp uvp).uvIndex = 6) := by
  refine ⟨fun h => ?_, fun h => ?_, fun h => ?_, fun h => ?_, fun h => ?_⟩
  · show mathRound (jsOrQ (getStationValue tp (findNearestStation tp preferredStations)) 28) = 28
    rw [h]
    norm_num [jsOrQ, mathRound]
  · show mathRound (jsOrQ (getStationValue hp (findNearestStation tp preferredStations)) 70) = 70
    rw [h]
    norm_num [jsOrQ, mathRound]
  · show mathRound (jsOrQ (getStationValue wp (findNearestStation tp preferredStations)) 12) = 12
    rw [h]
    norm_num [jsOrQ, mathRound]
  · show jsOrWindDir (getStationValue wdp (findNearestStation tp preferredStations)) = .label "NE"
    rw [h]
    simp [jsOrWindDir]
  · show mathRound (jsOrQ (getStationValue uvp (findNearestStation tp preferredStations)) 6) = 6
    rw [h]
    norm_num [jsOrQ, mathRound]

/-- Witness for C10: station S50 resolves from the temperature payload and
reports humidity exactly 0; the record's humidity becomes the default 70. -/
theorem zero_reading_replaced_by_default_witness :
    (currentFromPayloads demoTempPayload demoZeroHumidity (some []) (some [])
      (some [])).humidity = 70 :=
  (zero_reading_replaced_by_default demoTempPayload demoZeroHumidity (some []) (some [])
    (some [])).2.1 (by decide)

end ShoreSquad
